import Mathlib

/-!
Verification of the kodim.cz server and view components.

The definitions below are a shallow embedding of the TypeScript source:
the Express catch-all page handler (account resolution, access-check
composition, page rendering), the GitHub OAuth callback, the route table,
and the presentational components ExerciseView and ArticleContent.
-/

namespace Kodim

/-- A JavaScript value that may be undefined, null, or a proper value. -/
inductive JSVal (α : Type) where
  | undefinedVal
  | null
  | val (a : α)
deriving DecidableEq, Repr

/-- The access user handed to access checks (fields login and access,
from the accessUser object in the catch-all handler). -/
structure AccessUser where
  login : String
  access : String
deriving DecidableEq, Repr

/-- The access-check objects from kodim-cms used by the server:
AccessGrantAll, and AccessClaimCheck.create(user, ...claims). -/
inductive AccessCheck where
  | accessGrantAll
  | accessClaimCheck (user : AccessUser) (claims : List String)
deriving DecidableEq, Repr

/-- The claims object optionally present under config.defaultAccess. -/
structure DAClaims where
  content : List String
deriving DecidableEq, Repr

/-- The configured defaultAccess value: either a plain string (the code
compares it with "granted") or an object with an optional claims field. -/
inductive DefaultAccess where
  | str (s : String)
  | obj (claims : Option DAClaims)
deriving DecidableEq, Repr

/-- Reading the claims property of config.defaultAccess: on a string value
the property is undefined (none). -/
def DefaultAccess.claimsField : DefaultAccess → Option DAClaims
  | .str _ => none
  | .obj c => c

/-- The parts of server-config.json5 the handlers read. -/
structure Config where
  defaultAccess : DefaultAccess
  sessionSecret : String
deriving DecidableEq, Repr

/-- The user field of a stored account. -/
structure AccountUser where
  login : String
deriving DecidableEq, Repr

/-- The claims field of a stored account. -/
structure AccountClaims where
  content : List String
deriving DecidableEq, Repr

/-- An account as resolved by getAccount for a logged-in request. -/
structure Account where
  user : AccountUser
  claims : AccountClaims
deriving DecidableEq, Repr

/-- Modelled from the spec: getAccount (imported from ./getAccount, not
under src/) resolves a login to the stored account for the session user,
or to null when there is none; the spec describes per-request session
state as either yielding an account or not, so the result is the account
or null, never undefined. The handler line
account = login ? (await getAccount(login)) : null
then gives null when the login string is undefined or empty (falsy). -/
def resolveAccount (getAccount : String → Option Account) (login : Option String) :
    JSVal Account :=
  match login with
  | none => .null
  | some l =>
      if l = "" then .null
      else match getAccount l with
        | none => .null
        | some a => .val a

/-- The accessUser object built in the catch-all handler:
login is account?.user.login ?? "", and access is "public" exactly when
account === undefined, otherwise "registered". -/
def mkAccessUser (account : JSVal Account) : AccessUser :=
  { login := match account with
      | .val a => a.user.login
      | _ => ""
    access := match account with
      | .undefinedVal => "public"
      | _ => "registered" }

/-- The defaultAccessCheck value of the catch-all handler: initialised to
AccessClaimCheck over "/kurzy", replaced by AccessGrantAll when
config.defaultAccess === "granted", else by an AccessClaimCheck over
config.defaultAccess.claims.content when that claims field is defined. -/
def defaultAccessCheck (cfg : Config) (accessUser : AccessUser) : AccessCheck :=
  if cfg.defaultAccess = .str "granted" then .accessGrantAll
  else match cfg.defaultAccess.claimsField with
    | some cl => .accessClaimCheck accessUser cl.content
    | none => .accessClaimCheck accessUser ["/kurzy"]

/-- The accessCheck prop passed to ServerContextProvider:
account === null ? defaultAccessCheck
: AccessClaimCheck.create(accessUser, ...account.claims.content).
Reading account.claims on an undefined account would throw, hence none. -/
def handlerAccessCheck (cfg : Config) (account : JSVal Account) : Option AccessCheck :=
  match account with
  | .null => some (defaultAccessCheck cfg (mkAccessUser .null))
  | .undefinedVal => none
  | .val a => some (.accessClaimCheck (mkAccessUser (.val a)) a.claims.content)

/-! ## View components -/

/-- A rendered React node: an element with a tag, attributes and children,
or a text node. -/
inductive Node where
  | elem (tag : String) (attrs : List (String × String)) (children : List Node)
  | text (s : String)

/-- The props of ExerciseView. The jsml body is opaque payload passed
through unchanged to JsmlContainer. -/
structure ExerciseProps where
  num : Int
  title : String
  path : String
  demand : Int
  hasSolution : Bool
  jsml : String
deriving DecidableEq, Repr

/-- The demandText array of ExerciseView: element 0 is null, elements
1 to 5 are fixed Czech strings. -/
def demandText : List (Option String) :=
  [none, some "pohodička", some "to dáš", some "zapni hlavu",
   some "zavařovačka", some "smrt v přímém přenosu"]

/-- The JavaScript array read demandText[demand]: undefined outside the
index range, otherwise the stored element (null at index 0). -/
def demandTextAt (d : Int) : JSVal String :=
  if h : 0 ≤ d ∧ d.toNat < demandText.length then
    match demandText.get ⟨d.toNat, h.2⟩ with
    | none => .null
    | some s => .val s
  else .undefinedVal

/-- React renders null and undefined children as nothing, a string as a
text node. -/
def renderJSText : JSVal String → List Node
  | .val s => [.text s]
  | _ => []

/-- The solution-controls block of ExerciseView: rendered only when
hasSolution, a locked span when path === "forbidden", otherwise an anchor
to path. -/
def solutionControls (hasSolution : Bool) (path : String) : List Node :=
  if hasSolution then
    [.elem "div" [("className", "exercise-assign__controls")]
      (if path = "forbidden" then
        [.elem "span" [("className", "entry-link entry-link--locked btn")]
          [.elem "i" [("className", "icon-lock")] [],
           .elem "span" [] [.text "Řešení"]]]
      else
        [.elem "a" [("className", "entry-link btn"), ("href", path)]
          [.text "Řešení"]])]
  else []

/-- The children of the ExerciseView root that precede the solution
controls: number, head (title and demand), and body. -/
def exerciseBase (p : ExerciseProps) : List Node :=
  [ .elem "Num" [("className", "exercise-assign__num"), ("value", toString p.num)] []
  , .elem "div" [("className", "exercise-assign__head")]
      [ .elem "h3" [("className", "exercise-assign__title")] [.text p.title]
      , .elem "div" [("className", "exercise-assign__demand")]
          [ .elem "div" [("className", "demand demand--" ++ toString p.demand)] []
          , .elem "div" [("className", "demand-text")]
              (renderJSText (demandTextAt p.demand)) ] ]
  , .elem "div" [("className", "exercise-assign__body")]
      [.elem "JsmlContainer" [("jsml", p.jsml)] []] ]

/-- The ExerciseView component as a function from props to rendered tree. -/
def exerciseView (p : ExerciseProps) : Node :=
  .elem "div" [("className", "exercise-assign")]
    (exerciseBase p ++ solutionControls p.hasSolution p.path)

/-- The props of ArticleContent: a nav element and children nodes. -/
structure ArticleProps where
  navElement : Node
  children : List Node

/-- The fixed ReactTooltip element ArticleContent always renders. -/
def reactTooltip : Node :=
  .elem "ReactTooltip" [("place", "top"), ("effect", "solid"), ("border", "true")] []

/-- The ArticleContent component as a function from props to rendered tree. -/
def articleContent (p : ArticleProps) : Node :=
  .elem "div" [("className", "container article-content ")]
    [ .elem "aside" [("className", "article-content__nav")] [p.navElement]
    , .elem "div" [("className", "article-content__section")]
        (reactTooltip :: p.children) ]

/-! ## GitHub OAuth callback -/

/-- The fields of the GitHub user object the callback reads; name and
email may be absent (null). -/
structure GithubUser where
  login : String
  name : Option String
  avatarUrl : String
  email : Option String
deriving DecidableEq, Repr

/-- A stored user record (UserModel). -/
structure DbUser where
  login : String
  name : String
  avatarUrl : String
  email : Option String
  groups : List String
deriving DecidableEq, Repr

/-- A signed JWT as produced by jwt.sign({ login }, secret): the payload
holds only the login. -/
structure JwtToken where
  loginPayload : String
  secret : String
deriving DecidableEq, Repr

/-- jwt.sign({ login: user.login }, config.sessionSecret). -/
def jwtSign (login secret : String) : JwtToken := ⟨login, secret⟩

/-- UserModel.findOne({ login }) over the stored users. -/
def findOneByLogin (db : List DbUser) (l : String) : Option DbUser :=
  db.find? (fun u => u.login = l)

/-- The session state the callback reads. -/
structure Session where
  returnUrl : Option String
deriving DecidableEq, Repr

/-- The observable outcome of the OAuth callback: the stored users after
the handler, the cookie it sets, and the redirect target. -/
structure CallbackResult where
  db : List DbUser
  cookieName : String
  cookieToken : JwtToken
  redirectUrl : String
deriving DecidableEq, Repr

/-- The new user record created when no stored user matches the GitHub
login: name falls back to the login, email may be absent, groups empty. -/
def mkNewDbUser (gh : GithubUser) : DbUser :=
  { login := gh.login
  , name := gh.name.getD gh.login
  , avatarUrl := gh.avatarUrl
  , email := gh.email
  , groups := [] }

/-- The /prihlasit/github callback after the GitHub user is fetched:
look up the stored user by login, create and save one if absent, sign a
JWT of the login, set it as the token cookie, redirect to the session
returnUrl or "/". -/
def githubCallback (sessionSecret : String) (db : List DbUser) (sess : Session)
    (gh : GithubUser) : CallbackResult :=
  match findOneByLogin db gh.login with
  | some u =>
      { db := db
      , cookieName := "token"
      , cookieToken := jwtSign u.login sessionSecret
      , redirectUrl := sess.returnUrl.getD "/" }
  | none =>
      let u := mkNewDbUser gh
      { db := db ++ [u]
      , cookieName := "token"
      , cookieToken := jwtSign u.login sessionSecret
      , redirectUrl := sess.returnUrl.getD "/" }

/-! ## Page rendering and routing -/

/-- The helmet pieces interpolated into the HTML template. -/
structure HelmetData where
  htmlAttributes : String
  title : String
  meta : String
  link : String
  script : String
  bodyAttributes : String
deriving DecidableEq, Repr

/-- The template literal the catch-all handler sends: the full HTML
document with the serialized store and the app markup interpolated. -/
def renderPage (h : HelmetData) (storeJson bundle appContent : String) : String :=
  "<!DOCTYPE html>\n    <html " ++ h.htmlAttributes ++ ">\n      <head>\n        "
  ++ h.title ++ "\n        " ++ h.meta ++ "\n        " ++ h.link ++ "\n        "
  ++ h.script ++ "\n      </head>\n      <body " ++ h.bodyAttributes
  ++ ">\n        <script>\n          window.__STORE__ = " ++ storeJson
  ++ "\n        </script>\n        <script defer src=\"/" ++ bundle
  ++ "\"></script>\n        <div id=\"app\">" ++ appContent
  ++ "</div>\n      </body>\n    </html>\n  "

/-- The routes of the server in registration order, as matched on the
path segments of a GET request. -/
inductive Route where
  | staticAssets
  | staticJs
  | staticChangelog
  | cmsRoute
  | apiRoute
  | odhlasit
  | prihlasitGithub
  | prihlasitOther
  | kurzyChapter (course chapter : String)
  | catchAll
deriving DecidableEq, Repr

/-- Dispatch of a GET request to the first matching route, in the order
the handlers are registered; path parameters match nonempty segments. -/
def dispatchGet (path : List String) : Route :=
  match path with
  | "assets" :: _ => .staticAssets
  | "js" :: _ => .staticJs
  | "changelog" :: _ => .staticChangelog
  | "cms" :: _ => .cmsRoute
  | "api" :: _ => .apiRoute
  | ["odhlasit"] => .odhlasit
  | ["prihlasit", "github"] => .prihlasitGithub
  | "prihlasit" :: _ => .prihlasitOther
  | ["kurzy", c, ch] => if c ≠ "" ∧ ch ≠ "" then .kurzyChapter c ch else .catchAll
  | _ => .catchAll

/-- A response of the GET pipeline: a redirect, a rendered page carrying
the access check composed for the request, or a route handled by
middleware outside the page pipeline. -/
inductive Response where
  | redirect (status : Nat) (url : String)
  | page (check : Option AccessCheck) (html : String)
  | passthrough (tag : String)
deriving DecidableEq, Repr

/-- The GET pipeline: dispatch the path, answer the chapter route with a
permanent redirect, and the catch-all route with the rendered page and
the per-request access check; other routes are handled by middleware. -/
def handleGet (cfg : Config) (getAccount : String → Option Account)
    (login : Option String) (h : HelmetData) (storeJson bundle appContent : String)
    (path : List String) : Response :=
  match dispatchGet path with
  | .kurzyChapter c ch => .redirect 301 ("/kurzy/" ++ c ++ "/#" ++ ch)
  | .catchAll =>
      .page (handlerAccessCheck cfg (resolveAccount getAccount login))
        (renderPage h storeJson bundle appContent)
  | r => .passthrough (toString (repr r))

/-! ## Theorems -/

/-- Claim C1: the catch-all handler composes the access check per request
as a pure function of the resolved session account: when no account
resolves (null) the configured default access check is used, and when an
account resolves the check is an AccessClaimCheck over that account
content claims; being a function of the request data alone, no
access-check state persists across requests. -/
theorem c1_access_check_per_request (cfg : Config)
    (getAccount : String → Option Account) (login : Option String) :
    (resolveAccount getAccount login = .null →
      handlerAccessCheck cfg (resolveAccount getAccount login) =
        some (defaultAccessCheck cfg (mkAccessUser .null)))
    ∧ (∀ a : Account, resolveAccount getAccount login = .val a →
      handlerAccessCheck cfg (resolveAccount getAccount login) =
        some (.accessClaimCheck (mkAccessUser (.val a)) a.claims.content)) := by
  constructor
  · intro h; rw [h]; rfl
  · intro a h; rw [h]; rfl

/-- Witness for C1 at a request with no login under a granted default. -/
theorem c1_access_check_per_request_witness :
    handlerAccessCheck ⟨.str "granted", "s"⟩ (resolveAccount (fun _ => none) none) =
      some (defaultAccessCheck ⟨.str "granted", "s"⟩ (mkAccessUser .null)) :=
  (c1_access_check_per_request ⟨.str "granted", "s"⟩ (fun _ => none) none).1 rfl

/-- Claim C2: the default access check is AccessGrantAll exactly when
config.defaultAccess is the string granted, else an AccessClaimCheck over
the configured content claims when the claims field is defined, else an
AccessClaimCheck over the single claim /kurzy. -/
theorem c2_default_access_selection (cfg : Config) (u : AccessUser) :
    (cfg.defaultAccess = .str "granted" →
      defaultAccessCheck cfg u = .accessGrantAll)
    ∧ (cfg.defaultAccess ≠ .str "granted" →
      ∀ cl : DAClaims, cfg.defaultAccess.claimsField = some cl →
        defaultAccessCheck cfg u = .accessClaimCheck u cl.content)
    ∧ (cfg.defaultAccess ≠ .str "granted" →
      cfg.defaultAccess.claimsField = none →
        defaultAccessCheck cfg u = .accessClaimCheck u ["/kurzy"]) := by
  refine ⟨?_, ?_, ?_⟩
  · intro h; simp [defaultAccessCheck, h]
  · intro h cl hcl; simp [defaultAccessCheck, h, hcl]
  · intro h hcl; simp [defaultAccessCheck, h, hcl]

/-- Witness for C2 at a configuration with defaultAccess claims. -/
theorem c2_default_access_selection_witness :
    defaultAccessCheck ⟨.obj (some ⟨["/kurzy/a"]⟩), "s"⟩ ⟨"", "registered"⟩ =
      .accessClaimCheck ⟨"", "registered"⟩ ["/kurzy/a"] :=
  (c2_default_access_selection ⟨.obj (some ⟨["/kurzy/a"]⟩), "s"⟩
    ⟨"", "registered"⟩).2.1 (by simp) ⟨["/kurzy/a"]⟩ rfl

/-- Claim C4: the resolved account is never undefined, so for requests
with no login it is null, the access user is login empty with access
registered, and the branch assigning access public is unreachable. -/
theorem c4_account_never_undefined (getAccount : String → Option Account)
    (login : Option String) :
    resolveAccount getAccount login ≠ .undefinedVal
    ∧ ((login = none ∨ login = some "") →
        resolveAccount getAccount login = .null
        ∧ mkAccessUser (resolveAccount getAccount login) = ⟨"", "registered"⟩)
    ∧ (mkAccessUser (resolveAccount getAccount login)).access ≠ "public" := by
  have hne : resolveAccount getAccount login ≠ .undefinedVal := by
    cases login with
    | none => simp [resolveAccount]
    | some l =>
        by_cases hl : l = ""
        · simp [resolveAccount, hl]
        · cases hga : getAccount l <;> simp [resolveAccount, hl, hga]
  refine ⟨hne, ?_, ?_⟩
  · rintro (h | h) <;> subst h <;> exact ⟨rfl, rfl⟩
  · cases hv : resolveAccount getAccount login with
    | undefinedVal => exact absurd hv hne
    | null => simp [mkAccessUser]
    | val a => simp [mkAccessUser]

/-- Witness for C4 at a request with no login. -/
theorem c4_account_never_undefined_witness :
    resolveAccount (fun _ => none) none = .null
    ∧ mkAccessUser (resolveAccount (fun _ => none) none) = ⟨"", "registered"⟩ :=
  (c4_account_never_undefined (fun _ => none) none).2.1 (Or.inl rfl)

/-- Claim C5: with a resolved (non-null) account the access check passed
to the app is an AccessClaimCheck over that account content claims,
whatever the configured default; AccessGrantAll can only reach the app on
a request whose resolved account is null. -/
theorem c5_account_overrides_default (cfg : Config) (a : Account) :
    handlerAccessCheck cfg (.val a) =
      some (.accessClaimCheck (mkAccessUser (.val a)) a.claims.content)
    ∧ (∀ acc : JSVal Account,
        handlerAccessCheck cfg acc = some .accessGrantAll → acc = .null) := by
  constructor
  · rfl
  · intro acc h
    cases acc with
    | null => rfl
    | undefinedVal => simp [handlerAccessCheck] at h
    | val b => simp [handlerAccessCheck] at h

/-- Witness for C5: under a granted default, AccessGrantAll is produced
only at a null account. -/
theorem c5_account_overrides_default_witness :
    (JSVal.null : JSVal Account) = .null :=
  (c5_account_overrides_default ⟨.str "granted", "s"⟩ ⟨⟨"u"⟩, ⟨[]⟩⟩).2 .null (by decide)

/-- Claim C3: with hasSolution the exercise view renders exactly one
solution control, locked (a span with a lock icon, not a link) exactly
when the solution path is the string forbidden and a hyperlink to the
path otherwise; without hasSolution no solution control is rendered. -/
theorem c3_solution_control (p : ExerciseProps) :
    (p.hasSolution = true → p.path = "forbidden" →
      exerciseView p = .elem "div" [("className", "exercise-assign")]
        (exerciseBase p ++
          [.elem "div" [("className", "exercise-assign__controls")]
            [.elem "span" [("className", "entry-link entry-link--locked btn")]
              [.elem "i" [("className", "icon-lock")] [],
               .elem "span" [] [.text "Řešení"]]]]))
    ∧ (p.hasSolution = true → p.path ≠ "forbidden" →
      exerciseView p = .elem "div" [("className", "exercise-assign")]
        (exerciseBase p ++
          [.elem "div" [("className", "exercise-assign__controls")]
            [.elem "a" [("className", "entry-link btn"), ("href", p.path)]
              [.text "Řešení"]]]))
    ∧ (p.hasSolution = false →
      exerciseView p =
        .elem "div" [("className", "exercise-assign")] (exerciseBase p)) := by
  refine ⟨?_, ?_, ?_⟩
  · intro hs hp; simp [exerciseView, solutionControls, hs, hp]
  · intro hs hp; simp [exerciseView, solutionControls, hs, hp]
  · intro hs; simp [exerciseView, solutionControls, hs]

/-- Witness for C3 at a rendering with a forbidden solution path. -/
theorem c3_solution_control_witness :
    exerciseView ⟨1, "t", "forbidden", 2, true, "j"⟩ =
      .elem "div" [("className", "exercise-assign")]
        (exerciseBase ⟨1, "t", "forbidden", 2, true, "j"⟩ ++
          [.elem "div" [("className", "exercise-assign__controls")]
            [.elem "span" [("className", "entry-link entry-link--locked btn")]
              [.elem "i" [("className", "icon-lock")] [],
               .elem "span" [] [.text "Řešení"]]]]) :=
  (c3_solution_control ⟨1, "t", "forbidden", 2, true, "j"⟩).1 rfl rfl

/-- Claim C6: on the OAuth callback, an unmatched GitHub login creates a
stored user whose name falls back to the login and whose groups are
empty; in every case the token cookie is a JWT of just the login signed
with the session secret, and the redirect goes to the stored returnUrl or
to the root path. -/
theorem c6_github_callback (secret : String) (db : List DbUser) (sess : Session)
    (gh : GithubUser) :
    (findOneByLogin db gh.login = none →
      (githubCallback secret db sess gh).db =
        db ++ [{ login := gh.login, name := gh.name.getD gh.login,
                 avatarUrl := gh.avatarUrl, email := gh.email, groups := [] }])
    ∧ (githubCallback secret db sess gh).cookieName = "token"
    ∧ (githubCallback secret db sess gh).cookieToken = jwtSign gh.login secret
    ∧ (githubCallback secret db sess gh).redirectUrl = sess.returnUrl.getD "/" := by
  cases hf : findOneByLogin db gh.login with
  | some u =>
      have hu : u.login = gh.login := by
        have h := List.find?_some (hf : List.find? _ db = some u)
        simpa using h
      refine ⟨?_, ?_, ?_, ?_⟩
      · intro hnone; exact absurd hnone (by simp)
      · simp [githubCallback, hf]
      · simp [githubCallback, hf, jwtSign, hu]
      · simp [githubCallback, hf]
  | none =>
      refine ⟨?_, ?_, ?_, ?_⟩
      · intro _; simp [githubCallback, hf, mkNewDbUser]
      · simp [githubCallback, hf]
      · simp [githubCallback, hf, jwtSign, mkNewDbUser]
      · simp [githubCallback, hf]

/-- Witness for C6 at an empty user store. -/
theorem c6_github_callback_witness :
    (githubCallback "s" [] ⟨none⟩ ⟨"alice", none, "av", none⟩).db =
      [] ++ [{ login := "alice", name := (none : Option String).getD "alice",
               avatarUrl := "av", email := none, groups := [] }] :=
  (c6_github_callback "s" [] ⟨none⟩ ⟨"alice", none, "av", none⟩).1 rfl

/-- Claim C7: ExerciseView and ArticleContent are deterministic pure
functions of their props: equal props render equal output, and no request
or session state enters the rendering. -/
theorem c7_components_pure (p q : ExerciseProps) (a b : ArticleProps) :
    (p = q → exerciseView p = exerciseView q)
    ∧ (a = b → articleContent a = articleContent b) :=
  ⟨fun h => h ▸ rfl, fun h => h ▸ rfl⟩

/-- Witness for C7 at concrete props. -/
theorem c7_components_pure_witness :
    articleContent ⟨.text "n", []⟩ = articleContent ⟨.text "n", []⟩ :=
  (c7_components_pure ⟨1, "t", "p", 2, true, "j"⟩ ⟨1, "t", "p", 2, true, "j"⟩
    ⟨.text "n", []⟩ ⟨.text "n", []⟩).2 rfl

/-- Claim C8: a GET request falling through to the catch-all route is
answered with the page response: a complete HTML document (starting with
the doctype) embedding the app markup inside the element with id app and
the serialized store as window.__STORE__. -/
theorem c8_catch_all_renders (cfg : Config) (getAccount : String → Option Account)
    (login : Option String) (h : HelmetData) (storeJson bundle appContent : String)
    (path : List String) (hp : dispatchGet path = .catchAll) :
    handleGet cfg getAccount login h storeJson bundle appContent path =
      .page (handlerAccessCheck cfg (resolveAccount getAccount login))
        (renderPage h storeJson bundle appContent)
    ∧ (∃ pre post, renderPage h storeJson bundle appContent =
        pre ++ "<div id=\"app\">" ++ appContent ++ "</div>" ++ post)
    ∧ (∃ pre post, renderPage h storeJson bundle appContent =
        pre ++ "window.__STORE__ = " ++ storeJson ++ post)
    ∧ (∃ rest, renderPage h storeJson bundle appContent =
        "<!DOCTYPE html>" ++ rest) := by
  refine ⟨?_, ?_, ?_, ?_⟩
  · simp only [handleGet, hp]
  · refine ⟨"<!DOCTYPE html>\n    <html " ++ h.htmlAttributes
      ++ ">\n      <head>\n        " ++ h.title ++ "\n        " ++ h.meta
      ++ "\n        " ++ h.link ++ "\n        " ++ h.script
      ++ "\n      </head>\n      <body " ++ h.bodyAttributes
      ++ ">\n        <script>\n          window.__STORE__ = " ++ storeJson
      ++ "\n        </script>\n        <script defer src=\"/" ++ bundle
      ++ "\"></script>\n        ",
      "\n      </body>\n    </html>\n  ", ?_⟩
    simp only [renderPage, String.append_assoc]
    rfl
  · refine ⟨"<!DOCTYPE html>\n    <html " ++ h.htmlAttributes
      ++ ">\n      <head>\n        " ++ h.title ++ "\n        " ++ h.meta
      ++ "\n        " ++ h.link ++ "\n        " ++ h.script
      ++ "\n      </head>\n      <body " ++ h.bodyAttributes
      ++ ">\n        <script>\n          ",
      "\n        </script>\n        <script defer src=\"/" ++ bundle
      ++ "\"></script>\n        <div id=\"app\">" ++ appContent
      ++ "</div>\n      </body>\n    </html>\n  ", ?_⟩
    simp only [renderPage, String.append_assoc]
    rfl
  · refine ⟨"\n    <html " ++ h.htmlAttributes
      ++ ">\n      <head>\n        " ++ h.title ++ "\n        " ++ h.meta
      ++ "\n        " ++ h.link ++ "\n        " ++ h.script
      ++ "\n      </head>\n      <body " ++ h.bodyAttributes
      ++ ">\n        <script>\n          window.__STORE__ = " ++ storeJson
      ++ "\n        </script>\n        <script defer src=\"/" ++ bundle
      ++ "\"></script>\n        <div id=\"app\">" ++ appContent
      ++ "</div>\n      </body>\n    </html>\n  ", ?_⟩
    simp only [renderPage, String.append_assoc]
    rfl

/-- Witness for C8 at a concrete unmatched GET request. -/
theorem c8_catch_all_renders_witness :
    handleGet ⟨.str "granted", "s"⟩ (fun _ => none) none ⟨"", "", "", "", "", ""⟩
        "{}" "js/main.js" "<div></div>" ["uvod"] =
      .page (handlerAccessCheck ⟨.str "granted", "s"⟩
          (resolveAccount (fun _ => none) none))
        (renderPage ⟨"", "", "", "", "", ""⟩ "{}" "js/main.js" "<div></div>")
    ∧ (∃ pre post, renderPage ⟨"", "", "", "", "", ""⟩ "{}" "js/main.js" "<div></div>" =
        pre ++ "<div id=\"app\">" ++ "<div></div>" ++ "</div>" ++ post)
    ∧ (∃ pre post, renderPage ⟨"", "", "", "", "", ""⟩ "{}" "js/main.js" "<div></div>" =
        pre ++ "window.__STORE__ = " ++ "{}" ++ post)
    ∧ (∃ rest, renderPage ⟨"", "", "", "", "", ""⟩ "{}" "js/main.js" "<div></div>" =
        "<!DOCTYPE html>" ++ rest) :=
  c8_catch_all_renders ⟨.str "granted", "s"⟩ (fun _ => none) none
    ⟨"", "", "", "", "", ""⟩ "{}" "js/main.js" "<div></div>" ["uvod"] rfl

/-- Claim C9: a GET request of the form /kurzy/:course/:chapter is
answered with a 301 permanent redirect to /kurzy/:course/#:chapter, and
the response involves no rendering and no access check: it is the same
whatever the configuration, account resolution, login or render inputs. -/
theorem c9_kurzy_chapter_redirect (cfg cfg2 : Config)
    (ga ga2 : String → Option Account) (login login2 : Option String)
    (h h2 : HelmetData) (s s2 b b2 a a2 : String) (c ch : String)
    (hc : c ≠ "") (hch : ch ≠ "") :
    handleGet cfg ga login h s b a ["kurzy", c, ch] =
      .redirect 301 ("/kurzy/" ++ c ++ "/#" ++ ch)
    ∧ handleGet cfg ga login h s b a ["kurzy", c, ch] =
      handleGet cfg2 ga2 login2 h2 s2 b2 a2 ["kurzy", c, ch] := by
  have hd : dispatchGet ["kurzy", c, ch] = .kurzyChapter c ch := by
    simp [dispatchGet, hc, hch]
  constructor <;> simp only [handleGet, hd]

/-- Witness for C9 at a concrete chapter request. -/
theorem c9_kurzy_chapter_redirect_witness :
    handleGet ⟨.str "granted", "s"⟩ (fun _ => none) none ⟨"", "", "", "", "", ""⟩
        "{}" "js/main.js" "x" ["kurzy", "python", "zaklady"] =
      .redirect 301 ("/kurzy/" ++ "python" ++ "/#" ++ "zaklady")
    ∧ handleGet ⟨.str "granted", "s"⟩ (fun _ => none) none ⟨"", "", "", "", "", ""⟩
        "{}" "js/main.js" "x" ["kurzy", "python", "zaklady"] =
      handleGet ⟨.obj none, "t"⟩ (fun l => some ⟨⟨l⟩, ⟨["/kurzy"]⟩⟩) (some "u")
        ⟨"a", "b", "c", "d", "e", "f"⟩ "{q:1}" "js/other.js" "y"
        ["kurzy", "python", "zaklady"] :=
  c9_kurzy_chapter_redirect ⟨.str "granted", "s"⟩ ⟨.obj none, "t"⟩
    (fun _ => none) (fun l => some ⟨⟨l⟩, ⟨["/kurzy"]⟩⟩) none (some "u")
    ⟨"", "", "", "", "", ""⟩ ⟨"a", "b", "c", "d", "e", "f"⟩
    "{}" "{q:1}" "js/main.js" "js/other.js" "x" "y" "python" "zaklady"
    (by decide) (by decide)

/-- Claim C10: the demand label lookup is total: each demand 1 to 5 yields
a fixed nonempty string, demand 0 yields null (the stored element), and
any demand outside 0 to 5 yields undefined, so no demand value can make
the component fail to render. -/
theorem c10_demand_lookup (d : Int) :
    (1 ≤ d ∧ d ≤ 5 → ∃ s, demandTextAt d = .val s ∧ s ≠ "")
    ∧ (d = 0 → demandTextAt d = .null)
    ∧ (d < 0 ∨ 5 < d → demandTextAt d = .undefinedVal) := by
  refine ⟨?_, ?_, ?_⟩
  · rintro ⟨h1, h5⟩
    interval_cases d
    · exact ⟨"pohodička", by decide, by decide⟩
    · exact ⟨"to dáš", by decide, by decide⟩
    · exact ⟨"zapni hlavu", by decide, by decide⟩
    · exact ⟨"zavařovačka", by decide, by decide⟩
    · exact ⟨"smrt v přímém přenosu", by decide, by decide⟩
  · intro h0; subst h0; decide
  · intro hout
    have hcond : ¬(0 ≤ d ∧ d.toNat < demandText.length) := by
      rcases hout with hlt | hgt
      · rintro ⟨h0, _⟩; omega
      · rintro ⟨h0, hlen⟩
        simp only [demandText, List.length] at hlen
        omega
    simp [demandTextAt, hcond]

/-- Witness for C10 at demand 0 and demand 6. -/
theorem c10_demand_lookup_witness :
    demandTextAt 0 = .null ∧ demandTextAt 6 = .undefinedVal :=
  ⟨(c10_demand_lookup 0).2.1 rfl, (c10_demand_lookup 6).2.2 (Or.inr (by decide))⟩

end Kodim
